import Mathlib

/-!
Shallow embedding of the CloudStack template module
(`lib/ansible/modules/cloud/cloudstack/cs_template.py`).

The module reconciles a declared template state (`present`, `absent`,
`extracted`) against the remote control plane.  We embed the module body as
pure Lean functions over an explicit parameter record (`Params`), an
environment record (`Env`) holding the responses the external collaborators
would give (API responses, resolved ids, check mode), and a trace of the API
calls issued (`ApiCall`).  Each of the four reconciliation methods and the
`main` dispatch is translated line by line from the source; helper-library
behaviour that is not part of this file (tag reconciliation, result
assembly, argument validation, the missing-parameter check) is modelled
from the spec and marked as such in its doc comment.
-/

/-- Desired state of the template, the `state` module parameter. -/
inductive TState
  | present
  | absent
  | extracted
deriving DecidableEq, Repr

/-- A resource tag, a key/value pair. -/
structure Tag where
  key : String
  value : String
deriving DecidableEq, Repr

/-- A remote template resource as returned by the API: its id, its string
attributes keyed by the API attribute name, and its tags. -/
structure TemplateRes where
  id : String
  attrs : List (String × String)
  tags : List Tag
deriving DecidableEq, Repr

/-- A snapshot listed by the `listSnapshots` call. -/
structure SnapRes where
  name : String
  id : String
deriving DecidableEq, Repr

/-- The module parameters, one field per entry of the argument spec in
`main` (defaults as declared there; `Option` fields default to unset). -/
structure Params where
  name : String
  display_text : Option String
  url : Option String
  vm : Option String
  snapshot : Option String
  os_type : Option String
  is_ready : Bool
  is_public : Bool
  is_featured : Bool
  is_dynamically_scalable : Bool
  is_extractable : Bool
  is_routing : Option Bool
  checksum : Option String
  template_filter : String
  hypervisor : Option String
  requires_hvm : Bool
  password_enabled : Bool
  template_tag : Option String
  sshkey_enabled : Bool
  format : Option String
  bits : Nat
  state : TState
  cross_zones : Bool
  mode : String
  zone : Option String
  domain : Option String
  account : Option String
  project : Option String
  poll_async : Bool
  tags : Option (List Tag)
deriving DecidableEq, Repr

/-- The execution environment: check mode, the ids the helper library
resolves for the ancillary parameters, and the responses the remote API
returns to each query this module can issue during one invocation. -/
structure Env where
  check_mode : Bool
  domainId : Option String
  accountName : Option String
  projectId : Option String
  zoneId : String
  vmName : String
  osTypeId : Option String
  hypervisorName : String
  templatesResp : List TemplateRes
  volumesResp : List String
  snapshotsResp : List SnapRes
  createJobResp : TemplateRes
  registerResp : TemplateRes
  extractJobResp : TemplateRes
  pollJob : TemplateRes → TemplateRes

/-- Arguments of the `listTemplates` query built by `get_template`.
`zoneid = none` and `name = none` model the corresponding dictionary keys
being omitted from the query. -/
structure ListTplArgs where
  isready : Bool
  templatefilter : String
  domainid : Option String
  account : Option String
  projectid : Option String
  zoneid : Option String
  name : Option String
deriving DecidableEq, Repr

/-- The shared creation/registration arguments built by `_get_args`. -/
structure GArgs where
  name : String
  displaytext : String
  bits : Nat
  isdynamicallyscalable : Bool
  isextractable : Bool
  isfeatured : Bool
  ispublic : Bool
  passwordenabled : Bool
  requireshvm : Bool
  templatetag : Option String
  ostypeid : Option String
deriving DecidableEq, Repr

/-- The zone id sent by `registerTemplate`: either a resolved zone id or
the literal integer -1 used when `cross_zones` is set. -/
inductive ZoneIdVal
  | zid (s : String)
  | neg1
deriving DecidableEq, Repr

/-- Arguments of the `createTemplate` call. -/
structure CreateArgs where
  base : GArgs
  snapshotid : Option String
  volumeid : Option String
deriving DecidableEq, Repr

/-- Arguments of the `registerTemplate` call. -/
structure RegisterArgs where
  base : GArgs
  url : Option String
  format : Option String
  checksum : Option String
  isextractable : Bool
  isrouting : Option Bool
  sshkeyenabled : Bool
  hypervisor : String
  domainid : Option String
  account : Option String
  projectid : Option String
  zoneid : ZoneIdVal
deriving DecidableEq, Repr

/-- Arguments of the `extractTemplate` call. -/
structure ExtractArgs where
  id : String
  url : Option String
  mode : String
  zoneid : String
deriving DecidableEq, Repr

/-- Arguments of the `deleteTemplate` call; `zoneid = none` models the key
being omitted when `cross_zones` is set. -/
structure DeleteArgs where
  id : String
  zoneid : Option String
deriving DecidableEq, Repr

/-- One API call issued during an invocation, in issue order. -/
inductive ApiCall
  | listTemplates (a : ListTplArgs)
  | listVolumes
  | listSnapshots
  | createTemplate (a : CreateArgs)
  | registerTemplate (a : RegisterArgs)
  | extractTemplate (a : ExtractArgs)
  | deleteTemplate (a : DeleteArgs)
  | pollAsyncJob
  | tagMutation
deriving DecidableEq, Repr

/-- Result of one module invocation: the returned template (or a terminal
failure message), the `changed` flag of the result, and the API calls
issued (also on failing runs, up to the failure point). -/
structure RunOut where
  res : Except String (Option TemplateRes)
  changed : Bool
  calls : List ApiCall
deriving Repr

/-- True when the invocation ended without a terminal failure. -/
def RunOut.succeeded (r : RunOut) : Bool :=
  match r.res with
  | Except.ok _ => true
  | Except.error _ => false

/-- True when the invocation ended in a terminal module failure. -/
def RunOut.failed (r : RunOut) : Bool :=
  !r.succeeded

/-- The os type id the helper resolves for the `os_type` parameter:
`get_os_type` returns `None` when the parameter is unset. -/
def osTypeIdOf (p : Params) (e : Env) : Option String :=
  match p.os_type with
  | none => none
  | some _ => e.osTypeId

/-- Embedding of `_get_args` without its failure check: the shared
creation/registration argument dictionary, with `displaytext` falling back
to `name` via `get_or_fallback`. -/
def mkGArgs (p : Params) (e : Env) : GArgs :=
  { name := p.name
    displaytext := p.display_text.getD p.name
    bits := p.bits
    isdynamicallyscalable := p.is_dynamically_scalable
    isextractable := p.is_extractable
    isfeatured := p.is_featured
    ispublic := p.is_public
    passwordenabled := p.password_enabled
    requireshvm := p.requires_hvm
    templatetag := p.template_tag
    ostypeid := osTypeIdOf p e }

/-- Embedding of `_get_args`: fails with a message when the resolved os
type id is missing, otherwise returns the argument dictionary. -/
def _get_args (p : Params) (e : Env) : Except String GArgs :=
  let a := mkGArgs p e
  if a.ostypeid.isNone then
    Except.error "Missing required arguments: os_type"
  else
    Except.ok a

/-- Embedding of `get_root_volume` specialised to `key=id` as used by the
module: issues `listVolumes` and returns the first listed ROOT volume id,
or fails when none is listed. -/
def get_root_volume (e : Env) : Except String String × List ApiCall :=
  match e.volumesResp with
  | v :: _ => (Except.ok v, [ApiCall.listVolumes])
  | [] => (Except.error ("Root volume for " ++ e.vmName ++ " not found"),
           [ApiCall.listVolumes])

/-- Embedding of `get_snapshot` specialised to `key=id`: returns `none`
when the `snapshot` parameter is unset; otherwise resolves the ROOT volume
(which may fail), issues `listSnapshots`, and returns the id of the first
snapshot whose name or id equals the parameter, failing when none does. -/
def get_snapshot (p : Params) (e : Env) : Except String (Option String) × List ApiCall :=
  match p.snapshot with
  | none => (Except.ok none, [])
  | some snap =>
    match get_root_volume e with
    | (Except.error m, c) => (Except.error m, c)
    | (Except.ok _, c) =>
      match e.snapshotsResp.find? (fun s => s.name == snap || s.id == snap) with
      | some s => (Except.ok (some s.id), c ++ [ApiCall.listSnapshots])
      | none => (Except.error ("Snapshot " ++ snap ++ " not found"),
                 c ++ [ApiCall.listSnapshots])

/-- The `listTemplates` arguments built by `get_template`: the zone id is
omitted when `cross_zones` is set, and the name filter is omitted when the
`checksum` parameter is set. -/
def listTemplatesArgs (p : Params) (e : Env) : ListTplArgs :=
  { isready := p.is_ready
    templatefilter := p.template_filter
    domainid := e.domainId
    account := e.accountName
    projectid := e.projectId
    zoneid := if p.cross_zones then none else some e.zoneId
    name := match p.checksum with
            | none => some p.name
            | some _ => none }

/-- Embedding of `get_template`: issues one `listTemplates` query; with no
`checksum` parameter it returns the first listed template, otherwise the
first listed template whose `checksum` attribute equals the parameter, and
`none` when the response is empty or nothing matches. -/
def get_template (p : Params) (e : Env) : Option TemplateRes × List ApiCall :=
  let found :=
    match p.checksum with
    | none => e.templatesResp.head?
    | some c => e.templatesResp.find? (fun t => t.attrs.lookup "checksum" == some c)
  (found, [ApiCall.listTemplates (listTemplatesArgs p e)])

/-- The template `get_template` returns (first component of the pair). -/
def lookupTpl (p : Params) (e : Env) : Option TemplateRes :=
  (get_template p e).1

/-- The calls `get_template` issues (second component of the pair). -/
def lookupCalls (p : Params) (e : Env) : List ApiCall :=
  (get_template p e).2

/-- The result of `get_root_volume` (first component of the pair). -/
def get_root_volumeRes (e : Env) : Except String String :=
  (get_root_volume e).1

/-- The calls `get_root_volume` issues (second component of the pair). -/
def get_root_volumeCalls (e : Env) : List ApiCall :=
  (get_root_volume e).2

/-- The result of `get_snapshot` (first component of the pair). -/
def get_snapshotRes (p : Params) (e : Env) : Except String (Option String) :=
  (get_snapshot p e).1

/-- The calls `get_snapshot` issues (second component of the pair). -/
def get_snapshotCalls (p : Params) (e : Env) : List ApiCall :=
  (get_snapshot p e).2

/-- Modelled from the spec: tag reconciliation (`ensure_tags`) is owned by
the external helper library, not by this file.  Per the spec it reconciles
the declared tag list with the tags of the resource: with the `tags`
parameter unset it does nothing; with it set and equal to the remote tags
it does nothing; otherwise it marks the result changed and, outside check
mode, issues tag mutation calls and returns the resource with the declared
tags. -/
def ensure_tags (p : Params) (cm : Bool) (t : TemplateRes) : TemplateRes × Bool × List ApiCall :=
  match p.tags with
  | none => (t, false, [])
  | some ts =>
    if ts = t.tags then (t, false, [])
    else if cm then (t, true, [])
    else ({ t with tags := ts }, true, [ApiCall.tagMutation])

/-- Tail of `create_template` after the creation arguments are assembled:
under check mode no call is issued and no template is returned; otherwise
`createTemplate` is issued, the asynchronous job is polled when
`poll_async` is set, and tags are reconciled on the resulting template. -/
def finishCreate (p : Params) (e : Env) (pre : List ApiCall) (ca : CreateArgs) : RunOut :=
  if e.check_mode then
    { res := Except.ok none, changed := true, calls := pre }
  else
    let raw := e.createJobResp
    let tpl := if p.poll_async then e.pollJob raw else raw
    let tg := ensure_tags p e.check_mode tpl
    { res := Except.ok (some tg.1)
      changed := true
      calls := pre ++ [ApiCall.createTemplate ca]
               ++ (if p.poll_async then [ApiCall.pollAsyncJob] else [])
               ++ tg.2.2 }

/-- Embedding of `create_template`: looks up the template; when found only
tags are reconciled; when not found the result is marked changed, the
arguments are built (failing on a missing os type), the snapshot or ROOT
volume id is resolved (each of which may fail), and the template is
created via `finishCreate`. -/
def create_template (p : Params) (e : Env) : RunOut :=
  match lookupTpl p e with
  | some t =>
    let tg := ensure_tags p e.check_mode t
    { res := Except.ok (some tg.1), changed := tg.2.1, calls := lookupCalls p e ++ tg.2.2 }
  | none =>
    match _get_args p e with
    | Except.error m =>
      { res := Except.error m, changed := true, calls := lookupCalls p e }
    | Except.ok g =>
      match get_snapshotRes p e with
      | Except.error m =>
        { res := Except.error m, changed := true
          calls := lookupCalls p e ++ get_snapshotCalls p e }
      | Except.ok (some sid) =>
        finishCreate p e (lookupCalls p e ++ get_snapshotCalls p e)
          { base := g, snapshotid := some sid, volumeid := none }
      | Except.ok none =>
        match get_root_volumeRes e with
        | Except.error m =>
          { res := Except.error m, changed := true
            calls := lookupCalls p e ++ get_snapshotCalls p e ++ get_root_volumeCalls e }
        | Except.ok vid =>
          finishCreate p e (lookupCalls p e ++ get_snapshotCalls p e ++ get_root_volumeCalls e)
            { base := g, snapshotid := none, volumeid := some vid }

/-- Embedding of `register_template`: first fails when any of the required
parameters `format`, `url`, `hypervisor` is unset (the helper
`fail_on_missing_params`, modelled from the spec as a terminal failure
naming the missing parameters); then looks up the template; when not found
the result is marked changed, the registration arguments are built (zone
id -1 under `cross_zones`, the resolved zone id otherwise) and, outside
check mode, `registerTemplate` is issued and its response template
returned without polling. -/
def register_template (p : Params) (e : Env) : RunOut :=
  if p.format.isNone || p.url.isNone || p.hypervisor.isNone then
    { res := Except.error "missing required arguments: format, url, hypervisor"
      changed := false, calls := [] }
  else
    match lookupTpl p e with
    | some t =>
      { res := Except.ok (some t), changed := false, calls := lookupCalls p e }
    | none =>
      match _get_args p e with
      | Except.error m =>
        { res := Except.error m, changed := true, calls := lookupCalls p e }
      | Except.ok g =>
        let ra : RegisterArgs :=
          { base := g
            url := p.url
            format := p.format
            checksum := p.checksum
            isextractable := p.is_extractable
            isrouting := p.is_routing
            sshkeyenabled := p.sshkey_enabled
            hypervisor := e.hypervisorName
            domainid := e.domainId
            account := e.accountName
            projectid := e.projectId
            zoneid := if p.cross_zones then ZoneIdVal.neg1 else ZoneIdVal.zid e.zoneId }
        if e.check_mode then
          { res := Except.ok none, changed := true, calls := lookupCalls p e }
        else
          { res := Except.ok (some e.registerResp), changed := true
            calls := lookupCalls p e ++ [ApiCall.registerTemplate ra] }

/-- Embedding of `extract_template`: fails when the template lookup finds
nothing; otherwise marks the result changed unconditionally and, outside
check mode, issues `extractTemplate` (with the template id, the `url` and
`mode` parameters and the resolved zone id) and polls the job when
`poll_async` is set. -/
def extract_template (p : Params) (e : Env) : RunOut :=
  match lookupTpl p e with
  | none =>
    { res := Except.error "Failed: template not found", changed := false
      calls := lookupCalls p e }
  | some t =>
    let ea : ExtractArgs :=
      { id := t.id, url := p.url, mode := p.mode, zoneid := e.zoneId }
    if e.check_mode then
      { res := Except.ok (some t), changed := true, calls := lookupCalls p e }
    else
      let raw := e.extractJobResp
      let tpl := if p.poll_async then e.pollJob raw else raw
      { res := Except.ok (some tpl), changed := true
        calls := lookupCalls p e ++ [ApiCall.extractTemplate ea]
                 ++ (if p.poll_async then [ApiCall.pollAsyncJob] else []) }

/-- Embedding of `remove_template`: looks up the template; when found marks
the result changed and, outside check mode, issues `deleteTemplate` (zone
id omitted under `cross_zones`) and polls the job when `poll_async` is
set, returning the looked-up template either way. -/
def remove_template (p : Params) (e : Env) : RunOut :=
  match lookupTpl p e with
  | none =>
    { res := Except.ok none, changed := false, calls := lookupCalls p e }
  | some t =>
    let da : DeleteArgs :=
      { id := t.id, zoneid := if p.cross_zones then none else some e.zoneId }
    if e.check_mode then
      { res := Except.ok (some t), changed := true, calls := lookupCalls p e }
    else
      { res := Except.ok (some t), changed := true
        calls := lookupCalls p e ++ [ApiCall.deleteTemplate da]
                 ++ (if p.poll_async then [ApiCall.pollAsyncJob] else []) }

/-- Embedding of the dispatch in `main`: `absent` removes, `extracted`
extracts, `present` registers when `url` is set, creates when `vm` is set,
and otherwise fails. -/
def runModule (p : Params) (e : Env) : RunOut :=
  match p.state with
  | TState.absent => remove_template p e
  | TState.extracted => extract_template p e
  | TState.present =>
    if p.url.isSome then register_template p e
    else if p.vm.isSome then create_template p e
    else { res := Except.error "one of the following is required on state=present: url,vm"
           changed := false, calls := [] }

/-- Modelled from the spec: the orchestration runtime validates the
declared argument spec before the module body runs; this module declares
`url`/`vm` and `zone`/`cross_zones` mutually exclusive, so an invocation
setting both members of a pair is rejected at validation.  Returns `true`
when validation passes. -/
def validate_params (p : Params) : Bool :=
  !(p.url.isSome && p.vm.isSome) && !(p.zone.isSome && p.cross_zones)

/-- The `returns` attribute mapping of `AnsibleCloudStackTemplate.__init__`,
transcribed verbatim from the source: remote API attribute name on the
left, result field name on the right. -/
def returnsMap : List (String × String) :=
  [("checksum", "checksum"),
   ("status", "status"),
   ("isready", "is_ready"),
   ("templatetag", "template_tag"),
   ("sshkeyenabled", "sshkey_enabled"),
   ("passwordenabled", "password_enabled"),
   ("tempaltetype", "template_type"),
   ("ostypename", "os_type"),
   ("crossZones", "cross_zones"),
   ("isextractable", "is_extractable"),
   ("isfeatured", "is_featured"),
   ("ispublic", "is_public"),
   ("format", "format"),
   ("hypervisor", "hypervisor"),
   ("url", "url"),
   ("extractMode", "mode"),
   ("state", "state")]

/-- The standard result fields the helper library copies for every
CloudStack resource, per the documented return fields of the spec. -/
def commonReturnsMap : List (String × String) :=
  [("id", "id"),
   ("name", "name"),
   ("created", "created"),
   ("zonename", "zone"),
   ("domain", "domain"),
   ("account", "account"),
   ("project", "project"),
   ("displaytext", "display_text")]

/-- Modelled from the spec: the helper library `get_result` builds the
structured result by copying, for each pair of remote attribute name and
result field in the common mapping and in the module `returns` mapping,
the attribute of that name carried by the resource into the result field
it maps to; attributes the resource does not carry are omitted. -/
def get_result (t : TemplateRes) : List (String × String) :=
  (commonReturnsMap ++ returnsMap).filterMap (fun kv =>
    match t.attrs.lookup kv.1 with
    | some v => some (kv.2, v)
    | none => none)

/-- True for the four template mutation calls named by the claims. -/
def isTplMutation : ApiCall → Bool
  | ApiCall.createTemplate _ => true
  | ApiCall.registerTemplate _ => true
  | ApiCall.extractTemplate _ => true
  | ApiCall.deleteTemplate _ => true
  | _ => false

/-- Number of template mutation calls in a trace. -/
def tplMutations (cs : List ApiCall) : Nat :=
  (cs.filter isTplMutation).length

/-- True for `createTemplate` calls. -/
def isCreateCall : ApiCall → Bool
  | ApiCall.createTemplate _ => true
  | _ => false

/-- True for `registerTemplate` calls. -/
def isRegisterCall : ApiCall → Bool
  | ApiCall.registerTemplate _ => true
  | _ => false

/-- True for `extractTemplate` calls. -/
def isExtractCall : ApiCall → Bool
  | ApiCall.extractTemplate _ => true
  | _ => false

/-- True for `deleteTemplate` calls. -/
def isDeleteCall : ApiCall → Bool
  | ApiCall.deleteTemplate _ => true
  | _ => false

/-- True for the read-only list queries. -/
def isListCall : ApiCall → Bool
  | ApiCall.listTemplates _ => true
  | ApiCall.listVolumes => true
  | ApiCall.listSnapshots => true
  | _ => false

/-- True for tag mutation calls. -/
def isTagCall : ApiCall → Bool
  | ApiCall.tagMutation => true
  | _ => false

/-- True for the async job poll. -/
def isPollCall : ApiCall → Bool
  | ApiCall.pollAsyncJob => true
  | _ => false

/-- True for a mutation of remote state of any kind, template or tag. -/
def isAnyMutation (c : ApiCall) : Bool :=
  isTplMutation c || isTagCall c

/-- True when every template mutation call in the trace satisfies the
given predicate. -/
def allMutAre (cs : List ApiCall) (pred : ApiCall → Bool) : Bool :=
  cs.all (fun c => !isTplMutation c || pred c)

/-- True for the three template mutations that start an asynchronous job
the module polls (`createTemplate`, `extractTemplate`, `deleteTemplate`). -/
def isJobMutation (c : ApiCall) : Bool :=
  isCreateCall c || isExtractCall c || isDeleteCall c

/-- True when every asynchronous-job mutation in the trace is immediately
followed by a poll of that job. -/
def mutationsPolled : List ApiCall → Bool
  | [] => true
  | [c] => !isJobMutation c
  | c :: c2 :: cs =>
    if isJobMutation c then c2 == ApiCall.pollAsyncJob && mutationsPolled cs
    else mutationsPolled (c2 :: cs)

/-- The terminal failure cases of an invocation as enumerated by the
amended claim C4, stated over the raw parameters and environment: a
missing `url`/`vm` on `state=present`; a missing `format`/`hypervisor`
on the register path; an unresolved os type when building create/register
arguments for a template that was not found; a missing ROOT volume or
snapshot on the create path; and a missing template on extraction. -/
def claimedFailure (p : Params) (e : Env) : Bool :=
  match p.state with
  | TState.absent => false
  | TState.extracted => (lookupTpl p e).isNone
  | TState.present =>
    if p.url.isNone && p.vm.isNone then true
    else if p.url.isSome then
      p.format.isNone || p.hypervisor.isNone ||
        ((lookupTpl p e).isNone && (osTypeIdOf p e).isNone)
    else
      (lookupTpl p e).isNone &&
        ((osTypeIdOf p e).isNone ||
         (match p.snapshot with
          | some s => e.volumesResp.isEmpty ||
              (e.snapshotsResp.find? (fun x => x.name == s || x.id == s)).isNone
          | none => e.volumesResp.isEmpty))

/-- True when the observed remote state already matches the declared
desired state in the sense of claim C5: template found for `present`,
template not found for `absent`. -/
def remoteMatches (p : Params) (e : Env) : Bool :=
  match p.state with
  | TState.absent => (lookupTpl p e).isNone
  | TState.present => (lookupTpl p e).isSome
  | TState.extracted => false

/-- True when tag reconciliation has nothing to do: the `tags` parameter is
unset, or it equals the tags of the looked-up template. -/
def tagsIdle (p : Params) (e : Env) : Bool :=
  match lookupTpl p e with
  | some t =>
    match p.tags with
    | none => true
    | some ts => ts == t.tags
  | none => true

/-- The amended claim C1 as a predicate on one invocation: in check mode no
template mutation is issued and the `changed` flag equals the one the same
invocation computes with check mode off; outside check mode `changed` is
true exactly when some mutating call (template mutation or tag mutation)
was issued. -/
def C1_amendedProp (p : Params) (e : Env) : Prop :=
  (e.check_mode = true →
    tplMutations (runModule p e).calls = 0 ∧
    (runModule p e).changed = (runModule p { e with check_mode := false }).changed) ∧
  (e.check_mode = false →
    ((runModule p e).changed = true ↔ (runModule p e).calls.any isAnyMutation = true))

/-- The amended claim C2 as a predicate: create and register calls are
issued only when the lookup found no template, delete only when it found
one, and extract exactly when the state is `extracted`, a template was
found, and check mode is off, regardless of the current extraction URL. -/
def C2_amendedProp (p : Params) (e : Env) : Prop :=
  ((runModule p e).calls.any isCreateCall = true → lookupTpl p e = none) ∧
  ((runModule p e).calls.any isRegisterCall = true → lookupTpl p e = none) ∧
  ((runModule p e).calls.any isDeleteCall = true → (lookupTpl p e).isSome = true) ∧
  ((runModule p e).calls.any isExtractCall = true ↔
    (p.state = TState.extracted ∧ (lookupTpl p e).isSome = true ∧ e.check_mode = false))

/-- Claim C3 as a predicate: at most one template mutation per invocation,
and the kind of the mutation is determined by the declared state and the
`url`/`vm` discriminators. -/
def C3_prop (p : Params) (e : Env) : Prop :=
  tplMutations (runModule p e).calls ≤ 1 ∧
  (p.state = TState.absent → allMutAre (runModule p e).calls isDeleteCall = true) ∧
  (p.state = TState.extracted → allMutAre (runModule p e).calls isExtractCall = true) ∧
  (p.state = TState.present → p.url.isSome = true →
    allMutAre (runModule p e).calls isRegisterCall = true) ∧
  (p.state = TState.present → p.url = none → p.vm.isSome = true →
    allMutAre (runModule p e).calls isCreateCall = true)

/-- The no-op conclusion of the amended claim C5: no template mutation, no
tag mutation, and `changed = false`. -/
def C5_noopProp (p : Params) (e : Env) : Prop :=
  tplMutations (runModule p e).calls = 0 ∧
  (runModule p e).calls.any isTagCall = false ∧
  (runModule p e).changed = false

/-- The amended claim C6 as a predicate: every asynchronous-job mutation
(create, extract, delete) is immediately followed by a poll, and a
register invocation polls nothing. -/
def C6_prop (p : Params) (e : Env) : Prop :=
  mutationsPolled (runModule p e).calls = true ∧
  ((runModule p e).calls.any isRegisterCall = true →
    (runModule p e).calls.any isPollCall = false)

/-- Claim C8 as a predicate: without a `checksum` parameter the name filter
is sent and the first listed template is returned; with one, the name
filter is omitted and a template is returned exactly when some listed
template carries a matching `checksum` attribute. -/
def C8_prop (p : Params) (e : Env) : Prop :=
  (p.checksum = none →
    (listTemplatesArgs p e).name = some p.name ∧
    lookupTpl p e = e.templatesResp.head?) ∧
  (∀ c, p.checksum = some c →
    (listTemplatesArgs p e).name = none ∧
    ((lookupTpl p e).isSome = true ↔
      ∃ t ∈ e.templatesResp, t.attrs.lookup "checksum" = some c) ∧
    (∀ t, lookupTpl p e = some t →
      t ∈ e.templatesResp ∧ t.attrs.lookup "checksum" = some c))

/-- Claim C9 as a predicate on a check-mode invocation: no template
mutation and no tag mutation is issued, the trace is exactly the list
queries the same invocation performs with check mode off, and the
`changed` flag is computed identically. -/
def C9_prop (p : Params) (e : Env) : Prop :=
  tplMutations (runModule p e).calls = 0 ∧
  (runModule p e).calls.any isTagCall = false ∧
  (runModule p e).calls = (runModule p { e with check_mode := false }).calls.filter isListCall ∧
  (runModule p e).changed = (runModule p { e with check_mode := false }).changed

/-- Claim C10 as a predicate: the lookup omits the zone id exactly under
`cross_zones`; every register call carries zone id -1 under `cross_zones`
and the resolved zone id otherwise; every delete call omits the zone id
exactly under `cross_zones`; and setting both `zone` and `cross_zones`
fails argument validation. -/
def C10_prop (p : Params) (e : Env) : Prop :=
  ((listTemplatesArgs p e).zoneid = if p.cross_zones then none else some e.zoneId) ∧
  (∀ a, ApiCall.registerTemplate a ∈ (runModule p e).calls →
    a.zoneid = if p.cross_zones then ZoneIdVal.neg1 else ZoneIdVal.zid e.zoneId) ∧
  (∀ a, ApiCall.deleteTemplate a ∈ (runModule p e).calls →
    a.zoneid = if p.cross_zones then none else some e.zoneId) ∧
  (p.zone.isSome = true → p.cross_zones = true → validate_params p = false)

/-- A sample remote template used by the concrete instances below. -/
def tplA : TemplateRes :=
  { id := "t-1"
    attrs := [("checksum", "abc"), ("status", "Download Complete")]
    tags := [] }

/-- A remote template whose extraction URL already equals the declared one. -/
def tplU : TemplateRes :=
  { id := "t-9"
    attrs := [("url", "http://x"), ("state", "DOWNLOAD_URL_CREATED")]
    tags := [] }

/-- A remote template carrying the attributes of the documented return
fields, including the API attribute `templatetype`. -/
def tC7 : TemplateRes :=
  { id := "t-7"
    attrs := [("id", "t-7"), ("name", "tmpl"), ("templatetype", "USER"),
              ("ostypename", "CentOS 6.5 (64-bit)"), ("checksum", "abc"),
              ("status", "Download Complete")]
    tags := [] }

/-- A sample tag. -/
def tagKV : Tag := { key := "k", value := "v" }

/-- Baseline parameters: every optional parameter unset, every defaulted
parameter at its declared default. -/
def p0 : Params :=
  { name := "tmpl"
    display_text := none
    url := none
    vm := none
    snapshot := none
    os_type := none
    is_ready := false
    is_public := true
    is_featured := false
    is_dynamically_scalable := false
    is_extractable := false
    is_routing := none
    checksum := none
    template_filter := "self"
    hypervisor := none
    requires_hvm := false
    password_enabled := false
    template_tag := none
    sshkey_enabled := false
    format := none
    bits := 64
    state := TState.present
    cross_zones := false
    mode := "http_download"
    zone := none
    domain := none
    account := none
    project := none
    poll_async := true
    tags := none }

/-- Baseline environment: check mode off, ids resolved, empty template
listing, one ROOT volume, identity job poller. -/
def e0 : Env :=
  { check_mode := false
    domainId := none
    accountName := none
    projectId := none
    zoneId := "z-1"
    vmName := "vm1"
    osTypeId := some "os-1"
    hypervisorName := "KVM"
    templatesResp := []
    volumesResp := ["vol-1"]
    snapshotsResp := []
    createJobResp := tplA
    registerResp := tplA
    extractJobResp := tplA
    pollJob := fun t => t }

/-- Parameters asking for `state=absent`. -/
def pAbs : Params := { p0 with state := TState.absent }

/-- Parameters asking for `state=extracted` to the URL of `tplU`. -/
def pExt : Params := { p0 with state := TState.extracted, url := some "http://x" }

/-- Parameters for a complete register invocation. -/
def pRegOk : Params :=
  { p0 with
    url := some "http://u"
    format := some "OVA"
    hypervisor := some "KVM"
    os_type := some "CentOS" }

/-- Parameters for a register invocation with `format` unset. -/
def pRegNoFormat : Params :=
  { p0 with
    url := some "http://u"
    hypervisor := some "KVM"
    os_type := some "CentOS" }

/-- Parameters for a create-from-VM invocation declaring one tag. -/
def pVmTags : Params :=
  { p0 with
    vm := some "vm1"
    os_type := some "CentOS"
    tags := some [tagKV] }

/-- Parameters searching by checksum. -/
def pCks : Params := { p0 with checksum := some "abc" }

/-- Parameters asking for a cross-zone removal. -/
def pCz : Params := { p0 with state := TState.absent, cross_zones := true }

/-- Environment where the lookup finds `tplA`. -/
def eFound : Env := { e0 with templatesResp := [tplA] }

/-- Check-mode environment where the lookup finds `tplA`. -/
def eChk : Env := { e0 with check_mode := true, templatesResp := [tplA] }

/-- Environment where the lookup finds `tplU`. -/
def eFoundU : Env := { e0 with templatesResp := [tplU] }

/-! Helper lemmas about the call traces of the embedded functions. -/

theorem lookupCalls_eq (p : Params) (e : Env) :
    lookupCalls p e = [ApiCall.listTemplates (listTemplatesArgs p e)] := rfl

theorem get_root_volumeCalls_eq (e : Env) :
    get_root_volumeCalls e = [ApiCall.listVolumes] := by
  unfold get_root_volumeCalls get_root_volume
  cases e.volumesResp <;> rfl

theorem get_snapshotCalls_cases (p : Params) (e : Env) :
    get_snapshotCalls p e = [] ∨
    get_snapshotCalls p e = [ApiCall.listVolumes] ∨
    get_snapshotCalls p e = [ApiCall.listVolumes, ApiCall.listSnapshots] := by
  unfold get_snapshotCalls get_snapshot
  cases p.snapshot with
  | none => simp
  | some snap =>
    rcases hv : get_root_volume e with ⟨r, c⟩
    have hc : c = [ApiCall.listVolumes] := by
      have := get_root_volumeCalls_eq e
      rw [get_root_volumeCalls, hv] at this
      exact this
    cases r <;>
      cases hf : e.snapshotsResp.find? (fun s => s.name == snap || s.id == snap) <;>
        simp [hv, hf, hc]

@[simp] theorem tplMutations_nil : tplMutations [] = 0 := rfl

@[simp] theorem tplMutations_append (a b : List ApiCall) :
    tplMutations (a ++ b) = tplMutations a + tplMutations b := by
  simp [tplMutations, List.filter_append]

@[simp] theorem tplMutations_cons (c : ApiCall) (cs : List ApiCall) :
    tplMutations (c :: cs) =
      (if isTplMutation c = true then 1 else 0) + tplMutations cs := by
  simp [tplMutations, List.filter_cons]
  split <;> simp [Nat.add_comm]

@[simp] theorem tplMut_lookupCalls (p : Params) (e : Env) :
    tplMutations (lookupCalls p e) = 0 := by
  simp [lookupCalls_eq, isTplMutation]

@[simp] theorem tplMut_rootVolumeCalls (e : Env) :
    tplMutations (get_root_volumeCalls e) = 0 := by
  simp [get_root_volumeCalls_eq, isTplMutation]

@[simp] theorem tplMut_snapCalls (p : Params) (e : Env) :
    tplMutations (get_snapshotCalls p e) = 0 := by
  rcases get_snapshotCalls_cases p e with h | h | h <;> simp [h, isTplMutation]

theorem ensure_tags_calls_cases (p : Params) (cm : Bool) (t : TemplateRes) :
    (ensure_tags p cm t).2.2 = [] ∨ (ensure_tags p cm t).2.2 = [ApiCall.tagMutation] := by
  unfold ensure_tags
  cases p.tags with
  | none => simp
  | some ts => by_cases h : ts = t.tags <;> cases cm <;> simp [h]

@[simp] theorem tplMut_tagCalls (p : Params) (cm : Bool) (t : TemplateRes) :
    tplMutations (ensure_tags p cm t).2.2 = 0 := by
  rcases ensure_tags_calls_cases p cm t with h | h <;> simp [h, isTplMutation]

@[simp] theorem ensure_tags_check_calls (p : Params) (t : TemplateRes) :
    (ensure_tags p true t).2.2 = [] := by
  unfold ensure_tags
  cases p.tags with
  | none => simp
  | some ts => by_cases h : ts = t.tags <;> simp [h]

theorem ensure_tags_changed_indep (p : Params) (cm cm' : Bool) (t : TemplateRes) :
    (ensure_tags p cm t).2.1 = (ensure_tags p cm' t).2.1 := by
  unfold ensure_tags
  cases p.tags with
  | none => simp
  | some ts => by_cases h : ts = t.tags <;> cases cm <;> cases cm' <;> simp [h]

theorem ensure_tags_changed_eq_any (p : Params) (t : TemplateRes) :
    (ensure_tags p false t).2.1 = (ensure_tags p false t).2.2.any isAnyMutation := by
  unfold ensure_tags
  cases p.tags with
  | none => simp
  | some ts => by_cases h : ts = t.tags <;> simp [h, isAnyMutation, isTagCall]

@[simp] theorem allMutAre_nil (f : ApiCall → Bool) : allMutAre [] f = true := rfl

@[simp] theorem allMutAre_append (a b : List ApiCall) (f : ApiCall → Bool) :
    allMutAre (a ++ b) f = (allMutAre a f && allMutAre b f) := by
  simp [allMutAre]

@[simp] theorem allMutAre_cons (c : ApiCall) (cs : List ApiCall) (f : ApiCall → Bool) :
    allMutAre (c :: cs) f = ((!isTplMutation c || f c) && allMutAre cs f) := by
  simp [allMutAre]

@[simp] theorem allMutAre_lookupCalls (p : Params) (e : Env) (f : ApiCall → Bool) :
    allMutAre (lookupCalls p e) f = true := by
  simp [allMutAre, lookupCalls_eq, isTplMutation]

@[simp] theorem allMutAre_rootVolumeCalls (e : Env) (f : ApiCall → Bool) :
    allMutAre (get_root_volumeCalls e) f = true := by
  simp [allMutAre, get_root_volumeCalls_eq, isTplMutation]

@[simp] theorem allMutAre_snapCalls (p : Params) (e : Env) (f : ApiCall → Bool) :
    allMutAre (get_snapshotCalls p e) f = true := by
  rcases get_snapshotCalls_cases p e with h | h | h <;> simp [h, allMutAre, isTplMutation]

@[simp] theorem allMutAre_tagCalls (p : Params) (cm : Bool) (t : TemplateRes)
    (f : ApiCall → Bool) :
    allMutAre (ensure_tags p cm t).2.2 f = true := by
  rcases ensure_tags_calls_cases p cm t with h | h <;> simp [h, allMutAre, isTplMutation]

@[simp] theorem snapCalls_any_create (p : Params) (e : Env) :
    (get_snapshotCalls p e).any isCreateCall = false := by
  rcases get_snapshotCalls_cases p e with h | h | h <;> simp [h, isCreateCall]

@[simp] theorem snapCalls_any_register (p : Params) (e : Env) :
    (get_snapshotCalls p e).any isRegisterCall = false := by
  rcases get_snapshotCalls_cases p e with h | h | h <;> simp [h, isRegisterCall]

@[simp] theorem snapCalls_any_delete (p : Params) (e : Env) :
    (get_snapshotCalls p e).any isDeleteCall = false := by
  rcases get_snapshotCalls_cases p e with h | h | h <;> simp [h, isDeleteCall]

@[simp] theorem snapCalls_any_extract (p : Params) (e : Env) :
    (get_snapshotCalls p e).any isExtractCall = false := by
  rcases get_snapshotCalls_cases p e with h | h | h <;> simp [h, isExtractCall]

@[simp] theorem snapCalls_any_poll (p : Params) (e : Env) :
    (get_snapshotCalls p e).any isPollCall = false := by
  rcases get_snapshotCalls_cases p e with h | h | h <;> simp [h, isPollCall]

@[simp] theorem snapCalls_any_tag (p : Params) (e : Env) :
    (get_snapshotCalls p e).any isTagCall = false := by
  rcases get_snapshotCalls_cases p e with h | h | h <;> simp [h, isTagCall]

@[simp] theorem snapCalls_any_anyMut (p : Params) (e : Env) :
    (get_snapshotCalls p e).any isAnyMutation = false := by
  rcases get_snapshotCalls_cases p e with h | h | h <;>
    simp [h, isAnyMutation, isTplMutation, isTagCall]

@[simp] theorem tagCalls_any_create (p : Params) (cm : Bool) (t : TemplateRes) :
    (ensure_tags p cm t).2.2.any isCreateCall = false := by
  rcases ensure_tags_calls_cases p cm t with h | h <;> simp [h, isCreateCall]

@[simp] theorem tagCalls_any_register (p : Params) (cm : Bool) (t : TemplateRes) :
    (ensure_tags p cm t).2.2.any isRegisterCall = false := by
  rcases ensure_tags_calls_cases p cm t with h | h <;> simp [h, isRegisterCall]

@[simp] theorem tagCalls_any_delete (p : Params) (cm : Bool) (t : TemplateRes) :
    (ensure_tags p cm t).2.2.any isDeleteCall = false := by
  rcases ensure_tags_calls_cases p cm t with h | h <;> simp [h, isDeleteCall]

@[simp] theorem tagCalls_any_extract (p : Params) (cm : Bool) (t : TemplateRes) :
    (ensure_tags p cm t).2.2.any isExtractCall = false := by
  rcases ensure_tags_calls_cases p cm t with h | h <;> simp [h, isExtractCall]

@[simp] theorem tagCalls_any_poll (p : Params) (cm : Bool) (t : TemplateRes) :
    (ensure_tags p cm t).2.2.any isPollCall = false := by
  rcases ensure_tags_calls_cases p cm t with h | h <;> simp [h, isPollCall]

@[simp] theorem lookupTpl_env (p : Params) (e : Env) (b : Bool) :
    lookupTpl p { e with check_mode := b } = lookupTpl p e := rfl

@[simp] theorem lookupCalls_env (p : Params) (e : Env) (b : Bool) :
    lookupCalls p { e with check_mode := b } = lookupCalls p e := rfl

@[simp] theorem listTemplatesArgs_env (p : Params) (e : Env) (b : Bool) :
    listTemplatesArgs p { e with check_mode := b } = listTemplatesArgs p e := rfl

@[simp] theorem get_snapshotRes_env (p : Params) (e : Env) (b : Bool) :
    get_snapshotRes p { e with check_mode := b } = get_snapshotRes p e := rfl

@[simp] theorem get_snapshotCalls_env (p : Params) (e : Env) (b : Bool) :
    get_snapshotCalls p { e with check_mode := b } = get_snapshotCalls p e := rfl

@[simp] theorem get_root_volumeRes_env (e : Env) (b : Bool) :
    get_root_volumeRes { e with check_mode := b } = get_root_volumeRes e := rfl

@[simp] theorem get_root_volumeCalls_env (e : Env) (b : Bool) :
    get_root_volumeCalls { e with check_mode := b } = get_root_volumeCalls e := rfl

@[simp] theorem _get_args_env (p : Params) (e : Env) (b : Bool) :
    _get_args p { e with check_mode := b } = _get_args p e := rfl

@[simp] theorem filterList_lookupCalls (p : Params) (e : Env) :
    (lookupCalls p e).filter isListCall = lookupCalls p e := by
  simp [lookupCalls_eq, isListCall]

@[simp] theorem filterList_rootVolumeCalls (e : Env) :
    (get_root_volumeCalls e).filter isListCall = get_root_volumeCalls e := by
  simp [get_root_volumeCalls_eq, isListCall]

@[simp] theorem filterList_snapCalls (p : Params) (e : Env) :
    (get_snapshotCalls p e).filter isListCall = get_snapshotCalls p e := by
  rcases get_snapshotCalls_cases p e with h | h | h <;> simp [h, isListCall]

@[simp] theorem filterList_tagCalls (p : Params) (cm : Bool) (t : TemplateRes) :
    (ensure_tags p cm t).2.2.filter isListCall = [] := by
  rcases ensure_tags_calls_cases p cm t with h | h <;> simp [h, isListCall]

theorem get_root_volumeRes_eq (e : Env) :
    get_root_volumeRes e =
      match e.volumesResp with
      | [] => Except.error ("Root volume for " ++ e.vmName ++ " not found")
      | v :: _ => Except.ok v := by
  unfold get_root_volumeRes get_root_volume
  cases e.volumesResp <;> rfl

theorem get_snapshotRes_eq (p : Params) (e : Env) :
    get_snapshotRes p e =
      match p.snapshot with
      | none => Except.ok none
      | some snap =>
        match e.volumesResp with
        | [] => Except.error ("Root volume for " ++ e.vmName ++ " not found")
        | _ :: _ =>
          match e.snapshotsResp.find? (fun s => s.name == snap || s.id == snap) with
          | some s => Except.ok (some s.id)
          | none => Except.error ("Snapshot " ++ snap ++ " not found") := by
  unfold get_snapshotRes get_snapshot get_root_volume
  cases p.snapshot with
  | none => rfl
  | some snap =>
    cases e.volumesResp <;>
      cases hf : e.snapshotsResp.find? (fun s => s.name == snap || s.id == snap) <;>
        simp [hf]

@[simp] theorem mkGArgs_ostypeid (p : Params) (e : Env) :
    (mkGArgs p e).ostypeid = osTypeIdOf p e := rfl

@[simp] theorem mutationsPolled_nil : mutationsPolled [] = true := rfl

@[simp] theorem mutationsPolled_cons_nonmut (c : ApiCall) (cs : List ApiCall)
    (h : isJobMutation c = false) :
    mutationsPolled (c :: cs) = mutationsPolled cs := by
  cases cs <;> simp [mutationsPolled, h]

@[simp] theorem mutationsPolled_cons_mut (c : ApiCall) (cs : List ApiCall)
    (h : isJobMutation c = true) :
    mutationsPolled (c :: ApiCall.pollAsyncJob :: cs) = mutationsPolled cs := by
  simp [mutationsPolled, h]

@[simp] theorem mutationsPolled_append_nonmut (a b : List ApiCall)
    (h : a.any isJobMutation = false) :
    mutationsPolled (a ++ b) = mutationsPolled b := by
  induction a with
  | nil => simp
  | cons c cs ih =>
    simp only [List.any_cons, Bool.or_eq_false_iff] at h
    rw [List.cons_append, mutationsPolled_cons_nonmut _ _ h.1, ih h.2]

@[simp] theorem mutationsPolled_of_nonmut (a : List ApiCall)
    (h : a.any isJobMutation = false) :
    mutationsPolled a = true := by
  have hx := mutationsPolled_append_nonmut a [] h
  simpa using hx

@[simp] theorem lookupCalls_any_job (p : Params) (e : Env) :
    (lookupCalls p e).any isJobMutation = false := by
  simp [lookupCalls_eq, isJobMutation, isCreateCall, isExtractCall, isDeleteCall]

@[simp] theorem rootVolumeCalls_any_job (e : Env) :
    (get_root_volumeCalls e).any isJobMutation = false := by
  simp [get_root_volumeCalls_eq, isJobMutation, isCreateCall, isExtractCall, isDeleteCall]

@[simp] theorem snapCalls_any_job (p : Params) (e : Env) :
    (get_snapshotCalls p e).any isJobMutation = false := by
  rcases get_snapshotCalls_cases p e with h | h | h <;>
    simp [h, isJobMutation, isCreateCall, isExtractCall, isDeleteCall]

@[simp] theorem tagCalls_any_job (p : Params) (cm : Bool) (t : TemplateRes) :
    (ensure_tags p cm t).2.2.any isJobMutation = false := by
  rcases ensure_tags_calls_cases p cm t with h | h <;>
    simp [h, isJobMutation, isCreateCall, isExtractCall, isDeleteCall]

@[simp] theorem register_not_mem_snapCalls (a : RegisterArgs) (p : Params) (e : Env) :
    ApiCall.registerTemplate a ∉ get_snapshotCalls p e := by
  rcases get_snapshotCalls_cases p e with h | h | h <;> simp [h]

@[simp] theorem delete_not_mem_snapCalls (a : DeleteArgs) (p : Params) (e : Env) :
    ApiCall.deleteTemplate a ∉ get_snapshotCalls p e := by
  rcases get_snapshotCalls_cases p e with h | h | h <;> simp [h]

@[simp] theorem register_not_mem_tagCalls (a : RegisterArgs) (p : Params) (cm : Bool)
    (t : TemplateRes) :
    ApiCall.registerTemplate a ∉ (ensure_tags p cm t).2.2 := by
  rcases ensure_tags_calls_cases p cm t with h | h <;> simp [h]

@[simp] theorem delete_not_mem_tagCalls (a : DeleteArgs) (p : Params) (cm : Bool)
    (t : TemplateRes) :
    ApiCall.deleteTemplate a ∉ (ensure_tags p cm t).2.2 := by
  rcases ensure_tags_calls_cases p cm t with h | h <;> simp [h]

/-! Auxiliary lemmas for the failure characterization (claim C4). -/

set_option maxHeartbeats 2000000 in
theorem C4_aux_none (p : Params) (e : Env) (hsn : p.snapshot = none) :
    (runModule p e).failed = claimedFailure p e := by
  unfold claimedFailure runModule remove_template extract_template register_template create_template finishCreate _get_args
  simp only [get_snapshotRes_eq, get_root_volumeRes_eq, mkGArgs_ostypeid]
  by_cases hos : (osTypeIdOf p e).isNone = true <;>
    rcases hv : e.volumesResp with _ | ⟨v0, vr⟩ <;>
    simp only [hos, hsn, hv] <;>
    (repeat' split) <;>
    simp_all [RunOut.failed, RunOut.succeeded, Option.isSome_iff_ne_none,
      Option.isNone_iff_eq_none]

set_option maxHeartbeats 2000000 in
theorem C4_aux_some (p : Params) (e : Env) (snap : String)
    (hsn : p.snapshot = some snap) :
    (runModule p e).failed = claimedFailure p e := by
  unfold claimedFailure runModule remove_template extract_template register_template create_template finishCreate _get_args
  simp only [get_snapshotRes_eq, get_root_volumeRes_eq, mkGArgs_ostypeid]
  by_cases hos : (osTypeIdOf p e).isNone = true <;>
    rcases hv : e.volumesResp with _ | ⟨v0, vr⟩ <;>
    rcases hf : e.snapshotsResp.find? (fun s => s.name == snap || s.id == snap) with _ | s <;>
    simp only [hos, hsn, hv, hf] <;>
    (repeat' split) <;>
    simp_all [RunOut.failed, RunOut.succeeded, Option.isSome_iff_ne_none,
      Option.isNone_iff_eq_none]

/-! Claim theorems. -/

/-- C1 counterexample: under check mode, with `state=absent` and the
template found, the invocation exits successfully with `changed = true`
although no mutating API call (template or tag) was issued — refuting the
claim that `changed` is never true when no mutation call was sent,
including under check mode. -/
theorem C1_counterexample :
    (runModule pAbs eChk).succeeded = true ∧
    (runModule pAbs eChk).changed = true ∧
    tplMutations (runModule pAbs eChk).calls = 0 ∧
    (runModule pAbs eChk).calls.any isTagCall = false := by
  decide

/-- C1 (amended): for every successful invocation, outside check mode the
`changed` flag is true exactly when a mutating call (one of the four
template mutations or a tag mutation) was issued; in check mode no
template mutation is issued and `changed` equals the flag the same
invocation computes with check mode off. -/
theorem C1_amended_changed_iff_mutation (p : Params) (e : Env)
    (h : (runModule p e).succeeded = true) :
    C1_amendedProp p e := by
  unfold C1_amendedProp
  constructor <;> intro hcm <;>
    unfold runModule remove_template extract_template register_template create_template finishCreate at h ⊢ <;>
    (repeat' split) <;>
    simp_all [RunOut.succeeded, lookupCalls_eq, get_root_volumeCalls_eq,
      isAnyMutation, isTplMutation, isTagCall, ensure_tags_changed_eq_any,
      ensure_tags_changed_indep p true false]

/-- C1 witness: the amended property evaluated on a concrete check-mode
removal of an existing template. -/
theorem C1_witness : C1_amendedProp pAbs eChk :=
  C1_amended_changed_iff_mutation pAbs eChk (by decide)

/-- C2 counterexample: with `state=extracted` and a template whose `url`
attribute already equals the declared `url` parameter, the invocation
still issues `extractTemplate` — refuting the claim that extract is only
issued when the extracted URL does not already reflect the desired
state. -/
theorem C2_counterexample :
    tplU.attrs.lookup "url" = pExt.url ∧
    (runModule pExt eFoundU).calls.any isExtractCall = true ∧
    (runModule pExt eFoundU).succeeded = true := by
  decide

/-- C2 (amended): create and register are issued only when the lookup
found no template, delete only when it found one, and extract is issued
exactly when the state is `extracted`, a template was found, and check
mode is off — unconditionally on the current extraction URL. -/
theorem C2_amended_mutations_require_divergence (p : Params) (e : Env) :
    C2_amendedProp p e := by
  unfold C2_amendedProp
  unfold runModule remove_template extract_template register_template create_template finishCreate
  repeat' split
  all_goals simp_all [lookupCalls_eq, get_root_volumeCalls_eq, isCreateCall, isRegisterCall,
    isDeleteCall, isExtractCall, isPollCall, isTagCall, isTplMutation, isListCall]

/-- C2 witness: the amended property evaluated on a concrete removal of an
existing template. -/
theorem C2_witness : C2_amendedProp pAbs eFound :=
  C2_amended_mutations_require_divergence pAbs eFound

/-- C3: every invocation issues at most one template mutation, with its
kind selected by the declared state: delete for `absent`, extract for
`extracted`, register for `present` with `url` set, create for `present`
with `vm` set. -/
theorem C3_one_outcome (p : Params) (e : Env) : C3_prop p e := by
  unfold C3_prop
  unfold runModule remove_template extract_template register_template create_template finishCreate
  repeat' split
  all_goals simp_all [isTplMutation, isDeleteCall, isExtractCall, isRegisterCall, isCreateCall]

/-- C3 witness: the property evaluated on a concrete removal of an
existing template. -/
theorem C3_witness : C3_prop pAbs eFound :=
  C3_one_outcome pAbs eFound

/-- C4 counterexample: with `state=present`, `url` set, `os_type` set and
resolvable, no `vm` and no snapshot, but `format` unset, the module
terminates with a failure — a terminal failure in none of the cases the
claim enumerates, refuting the claim that no terminal failure of its own
is raised in any other case. -/
theorem C4_counterexample :
    (runModule pRegNoFormat e0).failed = true ∧
    pRegNoFormat.state = TState.present ∧
    pRegNoFormat.url.isSome = true ∧
    pRegNoFormat.vm = none ∧
    pRegNoFormat.snapshot = none ∧
    (osTypeIdOf pRegNoFormat e0).isSome = true := by
  decide

/-- C4 (amended): an invocation terminates in a module failure exactly in
the enumerated cases: missing `url`/`vm` on `state=present`; missing
`format` or `hypervisor` on the register path; unresolved os type when
building create/register arguments for a template not found; missing ROOT
volume or snapshot on the create path; and template not found on
`state=extracted`. -/
theorem C4_amended_failure_cases (p : Params) (e : Env) :
    (runModule p e).failed = claimedFailure p e := by
  cases hsn : p.snapshot with
  | none => exact C4_aux_none p e hsn
  | some snap => exact C4_aux_some p e snap hsn

/-- C4 witness: the failure characterization evaluated on a concrete
extraction whose template lookup finds nothing, which indeed fails. -/
theorem C4_witness :
    (runModule pExt e0).failed = claimedFailure pExt e0 ∧
    (runModule pExt e0).failed = true :=
  ⟨C4_amended_failure_cases pExt e0, by decide⟩

/-- C5 counterexample: a create-from-VM invocation whose template is
already present (so the remote state matches the desired state in the
claim sense) but whose declared tag list differs from the remote tags
exits successfully with `changed = true`, issuing no template mutation —
refuting the claim that the invocation always reports `changed = false`
when the remote state matches. -/
theorem C5_counterexample :
    remoteMatches pVmTags eFound = true ∧
    (runModule pVmTags eFound).succeeded = true ∧
    tplMutations (runModule pVmTags eFound).calls = 0 ∧
    (runModule pVmTags eFound).changed = true := by
  decide

/-- C5 (amended): when the remote state matches the desired state
(template found for `present`, not found for `absent`) and tag
reconciliation has nothing to do (tags unset or equal to the remote tags),
the invocation issues no template mutation and no tag mutation and reports
`changed = false`, so a second invocation after a successful first one is
a no-op. -/
theorem C5_amended_idempotent (p : Params) (e : Env)
    (h1 : remoteMatches p e = true) (h2 : tagsIdle p e = true) :
    C5_noopProp p e := by
  unfold C5_noopProp
  unfold remoteMatches at h1
  unfold tagsIdle at h2
  unfold runModule remove_template extract_template register_template create_template finishCreate ensure_tags
  repeat' split
  all_goals simp_all [lookupCalls_eq, get_root_volumeCalls_eq, isTagCall, isTplMutation]

/-- C5 witness: the no-op property evaluated on a concrete `state=absent`
invocation whose lookup finds nothing. -/
theorem C5_witness : C5_noopProp pAbs e0 :=
  C5_amended_idempotent pAbs e0 (by decide) (by decide)

/-- C6 counterexample: a register invocation with `poll_async = true`
issues `registerTemplate` and performs no poll — refuting the claim that
the register call is polled to completion. -/
theorem C6_counterexample :
    pRegOk.poll_async = true ∧
    (runModule pRegOk e0).calls.any isRegisterCall = true ∧
    (runModule pRegOk e0).calls.any isPollCall = false := by
  decide

/-- C6 (amended): with `poll_async` set, every asynchronous-job mutation
issued (create, extract, delete) is immediately followed by a poll of the
job before the invocation reports, while a register invocation polls
nothing — `registerTemplate` is answered synchronously. -/
theorem C6_amended_async_polled (p : Params) (e : Env)
    (h : p.poll_async = true) :
    C6_prop p e := by
  unfold C6_prop
  unfold runModule remove_template extract_template register_template create_template finishCreate
  repeat' split
  all_goals simp_all [lookupCalls_eq, get_root_volumeCalls_eq, List.append_assoc,
    isJobMutation, isCreateCall, isExtractCall, isDeleteCall, isRegisterCall, isPollCall]

/-- C6 witness: the polling property evaluated on a concrete removal of an
existing template, which issues `deleteTemplate` followed by a poll. -/
theorem C6_witness : C6_prop pAbs eFound :=
  C6_amended_async_polled pAbs eFound (by decide)

/-- C7 evidence of the code bug: the module `returns` mapping spells the
template type attribute `tempaltetype`, which never matches the remote
attribute `templatetype`, so for a template carrying `templatetype` the
result omits `template_type` although the other mapped fields are
populated — contradicting the documented return fields. -/
theorem C7_evidence :
    (get_result tC7).lookup "template_type" = none ∧
    (get_result tC7).lookup "os_type" = some "CentOS 6.5 (64-bit)" ∧
    (get_result tC7).lookup "checksum" = some "abc" ∧
    (get_result tC7).lookup "status" = some "Download Complete" ∧
    (get_result tC7).lookup "id" = some "t-7" ∧
    tC7.attrs.lookup "templatetype" = some "USER" ∧
    returnsMap.lookup "tempaltetype" = some "template_type" ∧
    returnsMap.lookup "templatetype" = none := by
  decide

/-- C8: the template lookup discriminates by checksum exactly when the
`checksum` parameter is set: without it the name filter is sent and the
first listed template returned; with it the name filter is omitted and a
template is returned exactly when some listed template carries a matching
`checksum` attribute. -/
theorem C8_lookup_by_checksum (p : Params) (e : Env) : C8_prop p e := by
  unfold C8_prop
  constructor
  · intro hc
    unfold lookupTpl get_template listTemplatesArgs
    simp [hc]
  · intro c hc
    refine ⟨?_, ?_, ?_⟩
    · unfold listTemplatesArgs
      simp [hc]
    · unfold lookupTpl get_template
      simp [hc, List.find?_isSome]
    · intro t ht
      unfold lookupTpl get_template at ht
      simp only [hc] at ht
      refine ⟨List.mem_of_find?_eq_some ht, ?_⟩
      have hp := List.find?_some ht
      simpa using hp

/-- C8 witness: the lookup characterization evaluated on a concrete
checksum search. -/
theorem C8_witness : C8_prop pCks eFound :=
  C8_lookup_by_checksum pCks eFound

/-- C9: in check mode no template mutation and no tag mutation is issued,
the trace is exactly the list queries of the corresponding non-check run,
and the `changed` flag is computed identically. -/
theorem C9_check_mode_frame (p : Params) (e : Env)
    (h : e.check_mode = true) :
    C9_prop p e := by
  unfold C9_prop
  unfold runModule remove_template extract_template register_template create_template finishCreate
  repeat' split
  all_goals simp_all [lookupCalls_eq, get_root_volumeCalls_eq, List.filter_append,
    isListCall, isTagCall, isTplMutation, ensure_tags_changed_indep p true false]

/-- C9 witness: the frame property evaluated on a concrete check-mode
removal of an existing template. -/
theorem C9_witness : C9_prop pAbs eChk :=
  C9_check_mode_frame pAbs eChk (by decide)

/-- C10: the lookup omits the zone id exactly under `cross_zones`; every
register call carries zone id -1 under `cross_zones` and the resolved zone
id otherwise; every delete call omits the zone id exactly under
`cross_zones`; and declaring both `zone` and `cross_zones` fails argument
validation. -/
theorem C10_zone_handling (p : Params) (e : Env) : C10_prop p e := by
  unfold C10_prop
  refine ⟨rfl, ?_, ?_, ?_⟩
  · intro a ha
    revert ha
    unfold runModule remove_template extract_template register_template create_template finishCreate
    repeat' split
    all_goals simp_all [lookupCalls_eq, get_root_volumeCalls_eq, List.mem_append]
  · intro a ha
    revert ha
    unfold runModule remove_template extract_template register_template create_template finishCreate
    repeat' split
    all_goals simp_all [lookupCalls_eq, get_root_volumeCalls_eq, List.mem_append]
  · intro hz hcz
    simp [validate_params, hz, hcz]

/-- C10 witness: the zone handling property evaluated on a concrete
cross-zone removal of an existing template. -/
theorem C10_witness : C10_prop pCz eFound :=
  C10_zone_handling pCz eFound
